import Mathlib

/-!
Verification of the stravagonuts spatial-attribution pipeline.

This file is a shallow embedding of the Python sources under
src/stravagonuts (database.py, strava_service.py, region_database_init.py,
nuts_handler.py, map_generator.py, app.py), together with theorems checking
the natural-language specification against that embedding.

Modelling conventions:
- SQLite tables are Lean lists of row structures; TEXT columns are String,
  INTEGER columns are Nat, nullable columns are Option.  REAL values
  (activity distance) are carried opaquely as Int: no arithmetic is ever
  performed on them by the code under verification.
- The streams_data TEXT column stores a JSON encoding of the streams
  object; since the code always decodes it back with json.loads, the row
  stores the decoded value directly.
- The per-key tables lau_first_visited / nuts_first_visited are modelled as
  lookup functions String to Option String; a result of none covers both an
  absent row and a stored NULL, which are indistinguishable to every query
  in the source (all reads go through LEFT JOINs).
- ISO-8601 date strings are compared with the lexicographic String order,
  matching SQLite TEXT comparison on ASCII data.
- GPS coordinates are pairs of Int; only their count and arrangement matter
  to the verified claims, never their numeric values, so the Float payload
  is modelled by an opaque discrete type.
-/

namespace Stravagonuts

/-- One row of the user-database activities table (database.py, init_database).
Columns: id INTEGER PRIMARY KEY, name TEXT, type TEXT, start_date TEXT,
distance REAL, has_streams INTEGER DEFAULT 0, streams_fetched INTEGER
DEFAULT 0, streams_data TEXT. -/
structure ActivityRow where
  id : Nat
  name : String
  type : String
  start_date : Option String
  distance : Int
  has_streams : Nat
  streams_fetched : Nat
  streams_data : Option (Option (List (Int × Int)))
  deriving DecidableEq

/-- The decoded Strava streams JSON object, reduced to the only key the code
reads: latlng (whose inner data field is the coordinate list).  none models
a JSON dict without a latlng key (or a falsy/empty dict). -/
structure Streams where
  latlng : Option (List (Int × Int))
  deriving DecidableEq

/-- One row of the regions-database lau_regions catalog table
(region_database_init.py, create_regions_schema). -/
structure LauRegion where
  lau_id : String
  name : String
  country_code : String
  geometry : Option String
  deriving DecidableEq

/-- One row of the regions-database nuts_regions catalog table. -/
structure NutsRegion where
  nuts_code : String
  name : String
  level : Nat
  country_code : String
  geometry : Option String
  deriving DecidableEq

/-- One row of the lau_nuts_mapping cross-reference table
(LocalUnit id mapped to the four statistical-level ids). -/
structure MappingRow where
  lau_id : String
  nuts0_code : String
  nuts1_code : String
  nuts2_code : String
  nuts3_code : String
  deriving DecidableEq

/-- The combined database state seen by database.py: the user database with
the regions database attached (get_db performs ATTACH DATABASE). -/
structure Db where
  activities : List ActivityRow
  activity_lau : List (Nat × String)
  activity_nuts : List (Nat × String)
  lau_regions : List LauRegion
  nuts_regions : List NutsRegion
  lau_nuts_mapping : List MappingRow
  lau_first_visited : String → Option String
  nuts_first_visited : String → Option String

/-- Embedding of database.py save_activity: INSERT with
ON CONFLICT(id) DO UPDATE SET name, type, start_date, distance (only those
four columns are overwritten on conflict; the stream columns keep their
stored values, and a fresh row gets the schema defaults 0/0/NULL). -/
def save_activity (tbl : List ActivityRow) (activity_id : Nat)
    (name activity_type : String) (start_date : Option String)
    (distance : Int) : List ActivityRow :=
  if tbl.any (fun r => r.id = activity_id) then
    tbl.map (fun r =>
      if r.id = activity_id then
        { r with name := name, type := activity_type,
                 start_date := start_date, distance := distance }
      else r)
  else
    tbl ++ [{ id := activity_id, name := name, type := activity_type,
              start_date := start_date, distance := distance,
              has_streams := 0, streams_fetched := 0, streams_data := none }]

/-- Embedding of database.py save_activity_streams: UPDATE activities SET
has_streams = 1, streams_fetched = 1, streams_data = json WHERE id = ?. -/
def save_activity_streams (tbl : List ActivityRow) (activity_id : Nat)
    (streams : Streams) : List ActivityRow :=
  tbl.map (fun r =>
    if r.id = activity_id then
      { r with has_streams := 1, streams_fetched := 1,
               streams_data := some streams.latlng }
    else r)

/-- Embedding of database.py mark_activity_no_streams: UPDATE activities SET
streams_fetched = 1, has_streams = 0 WHERE id = ?. -/
def mark_activity_no_streams (tbl : List ActivityRow)
    (activity_id : Nat) : List ActivityRow :=
  tbl.map (fun r =>
    if r.id = activity_id then
      { r with streams_fetched := 1, has_streams := 0 }
    else r)

/-- SQL aggregate MIN over the non-NULL values of a group: none when the
group has no non-NULL value, otherwise the least element in the TEXT
(lexicographic) order. -/
def sqlMin : List String → Option String
  | [] => none
  | x :: xs => some (xs.foldl (fun a b => min a b) x)

/-- Start dates produced by the join in update_lau_first_visited_dates for
one region: every activity_lau row for this region joined against the
activities row with the matching id, keeping non-NULL start dates. -/
def lauJoinDates (db : Db) (rid : String) : List String :=
  (db.activity_lau.filter (fun l => l.2 = rid)).flatMap
    (fun l => (db.activities.filter (fun a => a.id = l.1)).filterMap
      (fun a => a.start_date))

/-- Whether the GROUP BY in update_lau_first_visited_dates produces a group
for this region, i.e. at least one activity_lau row joins an activities
row (independent of start_date being NULL). -/
def lauHasJoinRow (db : Db) (rid : String) : Bool :=
  db.activity_lau.any (fun l =>
    l.2 = rid && db.activities.any (fun a => a.id = l.1))

/-- Embedding of database.py update_lau_first_visited_dates:
INSERT OR REPLACE INTO lau_first_visited
SELECT lau_id, MIN(start_date) FROM activity_lau JOIN activities GROUP BY
lau_id.  Keys with no group row are left untouched. -/
def update_lau_first_visited_dates (db : Db) : Db :=
  { db with lau_first_visited := fun rid =>
      if lauHasJoinRow db rid then sqlMin (lauJoinDates db rid)
      else db.lau_first_visited rid }

/-- Start dates produced by the join in update_nuts_first_visited_dates for
one region code. -/
def nutsJoinDates (db : Db) (code : String) : List String :=
  (db.activity_nuts.filter (fun l => l.2 = code)).flatMap
    (fun l => (db.activities.filter (fun a => a.id = l.1)).filterMap
      (fun a => a.start_date))

/-- Whether the GROUP BY in update_nuts_first_visited_dates produces a group
for this region code. -/
def nutsHasJoinRow (db : Db) (code : String) : Bool :=
  db.activity_nuts.any (fun l =>
    l.2 = code && db.activities.any (fun a => a.id = l.1))

/-- Embedding of database.py update_nuts_first_visited_dates. -/
def update_nuts_first_visited_dates (db : Db) : Db :=
  { db with nuts_first_visited := fun code =>
      if nutsHasJoinRow db code then sqlMin (nutsJoinDates db code)
      else db.nuts_first_visited code }

/-- One result row of the visited-region queries: region id, name, country,
joined first_visited value and COUNT(DISTINCT activity_id). -/
structure RegionRow where
  id : String
  name : String
  country_code : String
  first_visited : Option String
  activity_count : Nat
  deriving DecidableEq

/-- Sort key used by ORDER BY first_visited DESC: SQLite treats NULL as
smaller than every TEXT value, so NULL maps to bottom. -/
def fvKey (r : RegionRow) : WithBot String :=
  match r.first_visited with
  | none => ⊥
  | some d => (d : WithBot String)

/-- The ordering realised by ORDER BY first_visited DESC: later (larger)
first_visited values come first, NULLs last. -/
def fvDescOrder (a b : RegionRow) : Prop := fvKey b ≤ fvKey a

instance : DecidableRel fvDescOrder :=
  fun a b => inferInstanceAs (Decidable (fvKey b ≤ fvKey a))

instance : IsTotal RegionRow fvDescOrder :=
  ⟨fun a b => le_total (fvKey b) (fvKey a)⟩

instance : IsTrans RegionRow fvDescOrder :=
  ⟨fun _ _ _ h h2 => le_trans h2 h⟩

/-- The SELECT list of get_all_lau_regions for one catalog region: name and
country from the catalog row, first_visited via the LEFT JOIN on
lau_first_visited, COUNT(DISTINCT activity_id) over its activity_lau
rows. -/
def mkLauRow (db : Db) (r : LauRegion) : RegionRow :=
  { id := r.lau_id
    name := r.name
    country_code := r.country_code
    first_visited := db.lau_first_visited r.lau_id
    activity_count :=
      (((db.activity_lau.filter (fun l => l.2 = r.lau_id)).map
        (fun l => l.1)).dedup).length }

/-- Embedding of database.py get_all_lau_regions: catalog regions INNER
JOINed with activity_lau (so only regions with at least one link survive),
grouped by lau_id, ordered by first_visited DESC. -/
def get_all_lau_regions (db : Db) : List RegionRow :=
  ((db.lau_regions.filter (fun r =>
      db.activity_lau.any (fun l => l.2 = r.lau_id))).map
    (mkLauRow db)).insertionSort fvDescOrder

/-- The SELECT list of get_nuts_regions_by_level for one catalog region. -/
def mkNutsRow (db : Db) (r : NutsRegion) : RegionRow :=
  { id := r.nuts_code
    name := r.name
    country_code := r.country_code
    first_visited := db.nuts_first_visited r.nuts_code
    activity_count :=
      (((db.activity_nuts.filter (fun l => l.2 = r.nuts_code)).map
        (fun l => l.1)).dedup).length }

/-- Embedding of database.py get_nuts_regions_by_level: catalog NUTS
regions at the requested level INNER JOINed with activity_nuts, grouped by
nuts_code, ordered by first_visited DESC. -/
def get_nuts_regions_by_level (db : Db) (level : Nat) : List RegionRow :=
  ((db.nuts_regions.filter (fun r =>
      r.level = level && db.activity_nuts.any (fun l => l.2 = r.nuts_code))).map
    (mkNutsRow db)).insertionSort fvDescOrder

/-- Outcome of the HTTP streams request in strava_service.py
get_activity_streams, after the single 401-refresh retry: either the request
raised an exception (connection error, timeout, ...) or it produced a final
response with a status code and a decoded JSON body. -/
inductive FetchOutcome where
  | exn : FetchOutcome
  | resp (status : Nat) (body : Streams) : FetchOutcome
  deriving DecidableEq

/-- Embedding of strava_service.py get_activity_streams: a 404 response
returns None (confirmed no track); any other 4xx/5xx status makes
raise_for_status throw, and every exception is caught by the surrounding
try/except which also returns None; otherwise the JSON body is returned. -/
def get_activity_streams (o : FetchOutcome) : Option Streams :=
  match o with
  | .exn => none
  | .resp status body =>
      if status = 404 then none
      else if 400 ≤ status ∧ status < 600 then none
      else some body

/-- Embedding of the body of strava_service.py stream_consumer for a single
dequeued activity: fetch the streams, and either store them (when the result
is truthy and has a latlng key) or mark the activity as having no streams. -/
def stream_consumer (tbl : List ActivityRow) (activity_id : Nat)
    (o : FetchOutcome) : List ActivityRow :=
  match get_activity_streams o with
  | some streams =>
      if streams.latlng.isSome then save_activity_streams tbl activity_id streams
      else mark_activity_no_streams tbl activity_id
  | none => mark_activity_no_streams tbl activity_id

/-- The contents of the regions reference database on its own
(region_database_init.py operates on it before any ATTACH). -/
structure RegionsDb where
  lau_regions : List LauRegion
  nuts_regions : List NutsRegion
  lau_nuts_mapping : List MappingRow
  deriving DecidableEq

/-- The status record built by region_database_init.py
check_region_database_status. -/
structure RegionDbStatus where
  lau_count : Nat
  nuts0_count : Nat
  nuts1_count : Nat
  nuts2_count : Nat
  nuts3_count : Nat
  mapping_count : Nat
  is_initialized : Bool
  deriving DecidableEq

/-- Embedding of region_database_init.py check_region_database_status: count
the LAU rows, the NUTS rows at each of the four levels, and the mapping
rows; is_initialized is lau_count > 0 together with a positive NUTS count at
every level — the mapping count is computed but not part of the flag. -/
def check_region_database_status (db : RegionsDb) : RegionDbStatus :=
  let nutsCount := fun (level : Nat) =>
    (db.nuts_regions.filter (fun r => r.level = level)).length
  { lau_count := db.lau_regions.length
    nuts0_count := nutsCount 0
    nuts1_count := nutsCount 1
    nuts2_count := nutsCount 2
    nuts3_count := nutsCount 3
    mapping_count := db.lau_nuts_mapping.length
    is_initialized :=
      decide (0 < db.lau_regions.length) &&
      (decide (0 < nutsCount 0) && (decide (0 < nutsCount 1) &&
       (decide (0 < nutsCount 2) && decide (0 < nutsCount 3)))) }

/-- Embedding of the short-circuit test at the top of
region_database_init.py initialize_region_database: with
status.is_initialized true and force false the function returns True
immediately without re-parsing any source dataset. -/
def initialize_region_database_skips (db : RegionsDb) (force : Bool) : Bool :=
  (check_region_database_status db).is_initialized && !force

/-- Python string slicing s[:k] used by pandas .str[:k] in
nuts_handler.py. -/
def strSlice (s : String) (k : Nat) : String := ⟨s.data.take k⟩

/-- Embedding of the final derivation step of nuts_handler.py
parse_nuts_mapping: given the cleaned (NUTS3 code, EU LAU code) rows of the
cross-reference workbook (after the dropna), derive the NUTS0/1/2 codes as
the 2-, 3- and 4-character slices of the NUTS3 code. -/
def parse_nuts_mapping (rows : List (String × String)) : List MappingRow :=
  rows.map (fun p =>
    { lau_id := p.2
      nuts0_code := strSlice p.1 2
      nuts1_code := strSlice p.1 3
      nuts2_code := strSlice p.1 4
      nuts3_code := p.1 })

/-- A strict prefix of strings: the first is an initial segment of the
second and differs from it. -/
def strictPrefixStr (a b : String) : Prop := a.data <+: b.data ∧ a ≠ b

/-- Embedding of map_generator.py streams_to_linestring: None when the
streams object has no latlng key or its data list is empty; otherwise the
(lat, lng) pairs are swapped to (lng, lat) and None is returned when fewer
than 2 coordinates remain (a LineString needs at least two points). -/
def streams_to_linestring (s : Streams) : Option (List (Int × Int)) :=
  match s.latlng with
  | none => none
  | some d =>
      if d = [] then none
      else
        let coords := d.map (fun p => (p.2, p.1))
        if coords.length < 2 then none else some coords

/-- Embedding of the linestring-collection loop of map_generator.py
generate_map: each activity whose streams_data is present and converts to a
linestring contributes one (activity id, linestring) entry, in order;
activities with missing streams or degenerate tracks are skipped. -/
def collect_linestrings (acts : List (Nat × Option Streams)) :
    List (Nat × List (Int × Int)) :=
  acts.filterMap (fun p =>
    match p.2 with
    | none => none
    | some s => (streams_to_linestring s).map (fun ls => (p.1, ls)))

/-- Embedding of the LAU-linking loop of map_generator.py generate_map: for
every collected linestring, find_overlapping_lau supplies the list of
overlapping catalog rows (abstracted here as the function overlap from a
linestring to row indices, covering the bbox prefilter plus the exact
shapely intersection), and each produces one (activity id, LAU id) link. -/
def local_links (acts : List (Nat × Option Streams))
    (overlap : List (Int × Int) → List Nat)
    (lauCode : Nat → String) : List (Nat × String) :=
  (collect_linestrings acts).flatMap
    (fun e => (overlap e.2).map (fun lidx => (e.1, lauCode lidx)))

/-- Lookup of one statistical level in a mapping row, matching the
nuts_mapping[f-string NUTS-level] access in process_nuts_regions. -/
def nutsAt (m : MappingRow) (level : Nat) : String :=
  if level = 0 then m.nuts0_code
  else if level = 1 then m.nuts1_code
  else if level = 2 then m.nuts2_code
  else m.nuts3_code

/-- The (activity id, NUTS code) pairs one activity_lau_map entry
contributes at one level in map_generator.py process_nuts_regions: each LAU
index whose code has a row in lau_nuts_mapping yields the code of that row
at the level; unmatched LAU codes contribute nothing. -/
def nutsPairsFor (activity_ids : List Nat) (lauCode : Nat → String)
    (mapping : String → Option MappingRow) (entry : Nat × List Nat)
    (level : Nat) : List (Nat × String) :=
  entry.2.filterMap (fun lidx =>
    (mapping (lauCode lidx)).map
      (fun row => (activity_ids.getD entry.1 0, nutsAt row level)))

/-- Embedding of the per-level link set built by map_generator.py
process_nuts_regions: the pairs of every activity_lau_map entry collected
into a Python set, modelled as the deduplicated list. -/
def activity_nuts_links (activity_ids : List Nat)
    (activity_lau_map : List (Nat × List Nat)) (lauCode : Nat → String)
    (mapping : String → Option MappingRow) (level : Nat) :
    List (Nat × String) :=
  (activity_lau_map.flatMap
    (fun e => nutsPairsFor activity_ids lauCode mapping e level)).dedup

/-- Response of the app.py update_activities endpoint: HTTP 200 success or
the HTTP 400 error payload it returns while a run is active. -/
inductive SyncResponse where
  | accepted
  | alreadyProcessing
  deriving DecidableEq

/-- Snapshot of the process-wide sync machinery of app.py:
processing_status is_processing, plus the background threads created by
update_activities that have not yet executed their first statement
(pending) and those currently inside process() with the flag set
(running). -/
structure SyncState where
  is_processing : Bool
  pending : Nat
  running : Nat
  deriving DecidableEq

/-- Embedding of the request path of app.py update_activities: when
is_processing is set the endpoint answers with the error payload and
status 400 and changes nothing (in particular no work is queued); otherwise
it starts a new background thread — which has not yet set the flag when the
endpoint returns. -/
def update_activities (s : SyncState) : SyncResponse × SyncState :=
  if s.is_processing then (.alreadyProcessing, s)
  else (.accepted, { s with pending := s.pending + 1 })

/-- Interleaving semantics of the sync machinery: a request arrives, a
started thread executes its first statement (processing_status
is_processing = True at the top of process()), or a running thread finishes
(the finally block resets the flag). -/
inductive SyncStep : SyncState → SyncState → Prop where
  | request (s : SyncState) : SyncStep s (update_activities s).2
  | workerBegin (s : SyncState) (h : 0 < s.pending) :
      SyncStep s ⟨true, s.pending - 1, s.running + 1⟩
  | workerFinish (s : SyncState) (h : 0 < s.running) :
      SyncStep s ⟨false, s.pending, s.running - 1⟩

/-- The initial state of app.py: is_processing False, no threads. -/
def initialSyncState : SyncState := ⟨false, 0, 0⟩

/-- States reachable from process start by any interleaving. -/
inductive SyncReachable : SyncState → Prop where
  | init : SyncReachable initialSyncState
  | step {s t : SyncState} : SyncReachable s → SyncStep s t → SyncReachable t

/-- Region classifications of the specification data model: LocalUnit plus
the four nested statistical levels. -/
inductive RegionClass where
  | localUnit
  | stat0
  | stat1
  | stat2
  | stat3
  deriving DecidableEq

/-- A Region entity of the specification data model (spec section 3). -/
structure SpecRegion where
  id : String
  name : String
  country_code : String
  classification : RegionClass
  geometry : Option String
  first_visited : Option String
  deriving DecidableEq

/-- A RegionHierarchyMapping row of the specification data model. -/
structure SpecMappingRow where
  lau_id : String
  stat0 : String
  stat1 : String
  stat2 : String
  stat3 : String
  deriving DecidableEq

/-- The full store of the specification data model: Region Catalog,
hierarchy mapping, Activity table, and the five activity-region link tables
(one LocalUnit table plus one per statistical level). -/
structure SpecDb where
  regions : List SpecRegion
  hierarchy : List SpecMappingRow
  activities : List ActivityRow
  local_links : List (Nat × String)
  stat_links : Fin 4 → List (Nat × String)

/-- Modelled from the spec: clear_activities, the activities-only reset
invoked by the /api/reset-activities handler in app.py but absent from the
source tree (app.py imports it from database.py, which does not define it).
Spec section 8: the reset "preserves all Region Catalog rows and
RegionHierarchyMapping rows, but empties Activity and all link tables, and
resets every first_visited to null". -/
def clear_activities (db : SpecDb) : SpecDb :=
  { regions := db.regions.map (fun r => { r with first_visited := none })
    hierarchy := db.hierarchy
    activities := []
    local_links := []
    stat_links := fun _ => [] }

/-! Helper lemmas about the SQL MIN aggregate. -/

theorem foldl_min_mem (x : String) (xs : List String) :
    xs.foldl (fun a b => min a b) x ∈ x :: xs := by
  induction xs generalizing x with
  | nil => simp
  | cons y ys ih =>
      have hstep : (y :: ys).foldl (fun a b => min a b) x
          = ys.foldl (fun a b => min a b) (min x y) := rfl
      rw [hstep]
      rcases List.mem_cons.mp (ih (min x y)) with h | h
      · rw [h]
        rcases min_choice x y with hm | hm <;> rw [hm] <;> simp
      · exact List.mem_cons_of_mem _ (List.mem_cons_of_mem _ h)

theorem foldl_min_le (x : String) (xs : List String) :
    ∀ d ∈ x :: xs, xs.foldl (fun a b => min a b) x ≤ d := by
  induction xs generalizing x with
  | nil => simp
  | cons y ys ih =>
      intro d hd
      have hstep : (y :: ys).foldl (fun a b => min a b) x
          = ys.foldl (fun a b => min a b) (min x y) := rfl
      rw [hstep]
      have hle : ys.foldl (fun a b => min a b) (min x y) ≤ min x y :=
        ih (min x y) _ (List.mem_cons_self _ _)
      rcases List.mem_cons.mp hd with h | h
      · subst h
        exact le_trans hle (min_le_left _ _)
      · rcases List.mem_cons.mp h with h | h
        · subst h
          exact le_trans hle (min_le_right _ _)
        · exact ih (min x y) _ (List.mem_cons_of_mem _ h)

theorem sqlMin_spec {xs : List String} (h : xs ≠ []) :
    ∃ m, sqlMin xs = some m ∧ m ∈ xs ∧ ∀ d ∈ xs, m ≤ d := by
  cases xs with
  | nil => exact absurd rfl h
  | cons x ys =>
      exact ⟨ys.foldl (fun a b => min a b) x, rfl,
        foldl_min_mem x ys, foldl_min_le x ys⟩

/-- C10: re-saving an already-stored activity — as the paging loop of
fetch_and_store_activities_incremental does when pages overlap — rewrites
only name, type, start_date and distance; the stored row keeps its
has_streams, streams_fetched and streams_data values, no row is added, and
every other row is untouched, so a re-sync never resets or loses a
previously fetched track. -/
theorem save_activity_preserves_streams (tbl : List ActivityRow)
    (activity_id : Nat) (name activity_type : String)
    (start_date : Option String) (distance : Int) (r : ActivityRow)
    (hr : r ∈ tbl) (hid : r.id = activity_id) :
    (save_activity tbl activity_id name activity_type start_date distance).length
        = tbl.length
    ∧ (∃ r' ∈ save_activity tbl activity_id name activity_type start_date distance,
        r'.id = r.id ∧ r'.has_streams = r.has_streams
        ∧ r'.streams_fetched = r.streams_fetched
        ∧ r'.streams_data = r.streams_data
        ∧ r'.name = name ∧ r'.type = activity_type
        ∧ r'.start_date = start_date ∧ r'.distance = distance)
    ∧ (∀ r' ∈ tbl, r'.id ≠ activity_id →
        r' ∈ save_activity tbl activity_id name activity_type start_date distance) := by
  have hany : tbl.any (fun r => r.id = activity_id) = true :=
    List.any_eq_true.mpr ⟨r, hr, by simp [hid]⟩
  unfold save_activity
  rw [if_pos hany]
  refine ⟨List.length_map _ _, ⟨_, List.mem_map_of_mem _ hr, ?_⟩, ?_⟩
  · rw [if_pos hid]
    exact ⟨rfl, rfl, rfl, rfl, rfl, rfl, rfl, rfl⟩
  · intro r' hr' hne
    have h : (if r'.id = activity_id then
        { r' with name := name, type := activity_type,
                  start_date := start_date, distance := distance } else r') = r' :=
      if_neg hne
    rw [← h]
    exact List.mem_map_of_mem _ hr'

/-- Concrete instantiation of the C10 theorem: a stored activity with a
fetched track (has_streams = 1, streams_fetched = 1, saved streams) is
re-saved with fresh metadata and keeps all three stream fields. -/
theorem save_activity_preserves_streams_witness :
    (⟨7, "Old", "Ride", some "2024-01-01", 100, 1, 1, some (some [(1, 2)])⟩ : ActivityRow)
        ∈ [(⟨7, "Old", "Ride", some "2024-01-01", 100, 1, 1, some (some [(1, 2)])⟩ : ActivityRow)]
    ∧ (⟨7, "Old", "Ride", some "2024-01-01", 100, 1, 1, some (some [(1, 2)])⟩ : ActivityRow).id = 7
    ∧ ((save_activity [⟨7, "Old", "Ride", some "2024-01-01", 100, 1, 1, some (some [(1, 2)])⟩]
          7 "New" "Run" (some "2024-02-02") 200).length = 1
      ∧ (∃ r' ∈ save_activity [⟨7, "Old", "Ride", some "2024-01-01", 100, 1, 1, some (some [(1, 2)])⟩]
            7 "New" "Run" (some "2024-02-02") 200,
          r'.id = 7 ∧ r'.has_streams = 1 ∧ r'.streams_fetched = 1
          ∧ r'.streams_data = some (some [(1, 2)])
          ∧ r'.name = "New" ∧ r'.type = "Run"
          ∧ r'.start_date = some "2024-02-02" ∧ r'.distance = 200)) := by
  refine ⟨List.mem_singleton.mpr rfl, rfl, ?_⟩
  have h := save_activity_preserves_streams
    [⟨7, "Old", "Ride", some "2024-01-01", 100, 1, 1, some (some [(1, 2)])⟩]
    7 "New" "Run" (some "2024-02-02") 200
    ⟨7, "Old", "Ride", some "2024-01-01", 100, 1, 1, some (some [(1, 2)])⟩
    (List.mem_singleton.mpr rfl) rfl
  exact ⟨h.1, h.2.1⟩

/-- A stored activity that has not been attempted yet (streams_fetched = 0,
no stream data), used to exercise the stream consumer. -/
def c1_table : List ActivityRow :=
  [⟨101, "Morning Run", "Run", some "2024-05-01T08:00:00Z", 5000, 0, 0, none⟩]

/-- C1 counterexample: when the streams request raises a transient
exception, get_activity_streams swallows it and returns None, and the
consumer then marks the activity no-streams — streams_fetched becomes 1
(FetchedNoTrack) instead of staying 0, so the activity is NOT left eligible
for a retry, contradicting the claim. -/
theorem stream_consumer_marks_no_track_on_exception :
    stream_consumer c1_table 101 FetchOutcome.exn
      = [⟨101, "Morning Run", "Run", some "2024-05-01T08:00:00Z", 5000, 0, 1, none⟩]
    ∧ ¬ ∀ r ∈ stream_consumer c1_table 101 FetchOutcome.exn,
        r.id = 101 → r.streams_fetched = 0 := by
  refine ⟨rfl, fun h => ?_⟩
  have := h ⟨101, "Morning Run", "Run", some "2024-05-01T08:00:00Z", 5000, 0, 1, none⟩
    (by rw [show stream_consumer c1_table 101 FetchOutcome.exn
      = [⟨101, "Morning Run", "Run", some "2024-05-01T08:00:00Z", 5000, 0, 1, none⟩] from rfl]
        exact List.mem_singleton.mpr rfl) rfl
  simp at this

/-- C1 amended: a transient exception is indistinguishable from a confirmed
no-track response once get_activity_streams returns — both yield None — so
the consumer sets FetchedNoTrack (streams_fetched = 1, has_streams = 0) for
every failed fetch, transient or confirmed; only a successful fetch whose
body carries a latlng key stores a track. -/
theorem stream_consumer_failure_marks_no_track (tbl : List ActivityRow)
    (activity_id : Nat) (o : FetchOutcome)
    (h : get_activity_streams o = none) :
    get_activity_streams FetchOutcome.exn = none
    ∧ stream_consumer tbl activity_id o = mark_activity_no_streams tbl activity_id
    ∧ ∀ r ∈ stream_consumer tbl activity_id o, r.id = activity_id →
        r.streams_fetched = 1 ∧ r.has_streams = 0 := by
  have hcons : stream_consumer tbl activity_id o
      = mark_activity_no_streams tbl activity_id := by
    unfold stream_consumer
    rw [h]
  refine ⟨rfl, hcons, ?_⟩
  intro r hr hrid
  rw [hcons] at hr
  unfold mark_activity_no_streams at hr
  rcases List.mem_map.mp hr with ⟨r0, _, heq⟩
  by_cases h0 : r0.id = activity_id
  · rw [if_pos h0] at heq
    rw [← heq]
    exact ⟨rfl, rfl⟩
  · rw [if_neg h0] at heq
    rw [← heq] at hrid
    exact absurd hrid h0

/-- Concrete instantiation of the amended C1 theorem at the transient
exception outcome. -/
theorem stream_consumer_failure_marks_no_track_witness :
    get_activity_streams FetchOutcome.exn = none
    ∧ (get_activity_streams FetchOutcome.exn = none
      ∧ stream_consumer c1_table 101 FetchOutcome.exn
          = mark_activity_no_streams c1_table 101
      ∧ ∀ r ∈ stream_consumer c1_table 101 FetchOutcome.exn, r.id = 101 →
          r.streams_fetched = 1 ∧ r.has_streams = 0) :=
  ⟨rfl, stream_consumer_failure_marks_no_track c1_table 101 FetchOutcome.exn rfl⟩

/-- A regions database holding one LAU region and one NUTS region at each
of the four levels, but zero hierarchy-mapping rows. -/
def c2_db : RegionsDb :=
  { lau_regions := [⟨"BE_21001", "Bruxelles", "BE", none⟩]
    nuts_regions :=
      [⟨"BE", "Belgique", 0, "BE", none⟩,
       ⟨"BE1", "Region de Bruxelles", 1, "BE", none⟩,
       ⟨"BE10", "Region de Bruxelles", 2, "BE", none⟩,
       ⟨"BE100", "Arr. de Bruxelles", 3, "BE", none⟩]
    lau_nuts_mapping := [] }

/-- C2 counterexample: initialize_region_database short-circuits on a
catalog with zero hierarchy-mapping rows, because is_initialized checks
only the region counts — the claimed "and a non-zero number of
hierarchy-mapping rows" is not part of the condition. -/
theorem initialize_skips_with_zero_mappings :
    initialize_region_database_skips c2_db false = true
    ∧ (check_region_database_status c2_db).mapping_count = 0 := by
  exact ⟨rfl, rfl⟩

/-- C2 amended: on a repeat invocation with force = false,
initialize_region_database skips re-parsing if and only if the region count
is non-zero at every classification (LAU and all four NUTS levels); the
hierarchy-mapping row count is reported in the status but is not part of
the short-circuit condition. -/
theorem initialize_skips_iff (db : RegionsDb) :
    initialize_region_database_skips db false = true ↔
      (0 < (check_region_database_status db).lau_count
      ∧ 0 < (check_region_database_status db).nuts0_count
      ∧ 0 < (check_region_database_status db).nuts1_count
      ∧ 0 < (check_region_database_status db).nuts2_count
      ∧ 0 < (check_region_database_status db).nuts3_count) := by
  simp [initialize_region_database_skips, check_region_database_status,
    Bool.and_eq_true, decide_eq_true_eq]

/-- C3 (modelled from the spec, since clear_activities is imported by
app.py reset_activities but missing from the source tree): the
activities-only reset keeps every Region Catalog row — id, name, country,
classification and geometry unchanged — and every hierarchy-mapping row,
while emptying the Activity table and all five activity-region link tables
and resetting every region's first_visited to null. -/
theorem reset_activities_only_frame (db : SpecDb) :
    (clear_activities db).regions.map
        (fun r => (r.id, r.name, r.country_code, r.classification, r.geometry))
      = db.regions.map
        (fun r => (r.id, r.name, r.country_code, r.classification, r.geometry))
    ∧ (clear_activities db).regions.length = db.regions.length
    ∧ (clear_activities db).hierarchy = db.hierarchy
    ∧ (clear_activities db).activities = []
    ∧ (clear_activities db).local_links = []
    ∧ (∀ level : Fin 4, (clear_activities db).stat_links level = [])
    ∧ (∀ r ∈ (clear_activities db).regions, r.first_visited = none) := by
  refine ⟨?_, ?_, rfl, rfl, rfl, fun _ => rfl, ?_⟩
  · simp [clear_activities, List.map_map, Function.comp]
  · simp [clear_activities]
  · intro r hr
    simp only [clear_activities, List.mem_map] at hr
    rcases hr with ⟨r0, _, heq⟩
    rw [← heq]

/-- C7 counterexample: mutual exclusion does not hold.  The is_processing
flag is set by the spawned background thread as its first statement, not by
the request handler before it responds, so two requests that both arrive
before either thread has run are both accepted, and an interleaving reaches
a state with two sync operations running concurrently. -/
theorem two_syncs_running_reachable :
    SyncReachable ⟨true, 0, 2⟩
    ∧ ¬ ∀ s : SyncState, SyncReachable s → s.running ≤ 1 := by
  have s0 : SyncReachable ⟨false, 0, 0⟩ := SyncReachable.init
  have s1 : SyncReachable ⟨false, 1, 0⟩ :=
    s0.step (SyncStep.request ⟨false, 0, 0⟩)
  have s2 : SyncReachable ⟨false, 2, 0⟩ :=
    s1.step (SyncStep.request ⟨false, 1, 0⟩)
  have s3 : SyncReachable ⟨true, 1, 1⟩ :=
    s2.step (SyncStep.workerBegin ⟨false, 2, 0⟩ (by decide))
  have s4 : SyncReachable ⟨true, 0, 2⟩ :=
    s3.step (SyncStep.workerBegin ⟨true, 1, 1⟩ (by decide))
  exact ⟨s4, fun h => absurd (h _ s4) (by decide)⟩

/-- C7 amended: a request that arrives while the is-processing flag is set
is rejected immediately with the distinct already-processing error payload
and is not queued — the state, including the number of pending background
threads, is unchanged.  The handler itself, however, never sets the flag
before responding (only a spawned thread does), so this rejection alone
does not guarantee that two syncs are never in progress concurrently. -/
theorem sync_request_rejected_while_processing (s : SyncState)
    (h : s.is_processing = true) :
    update_activities s = (SyncResponse.alreadyProcessing, s)
    ∧ (update_activities s).2.pending = s.pending
    ∧ ∀ t : SyncState, (update_activities t).2.is_processing = t.is_processing := by
  refine ⟨by simp [update_activities, h], by simp [update_activities, h], ?_⟩
  intro t
  unfold update_activities
  split <;> rfl

/-- Concrete instantiation of the amended C7 theorem at a state whose flag
is set. -/
theorem sync_request_rejected_while_processing_witness :
    (⟨true, 0, 1⟩ : SyncState).is_processing = true
    ∧ (update_activities ⟨true, 0, 1⟩ = (SyncResponse.alreadyProcessing, ⟨true, 0, 1⟩)
      ∧ (update_activities ⟨true, 0, 1⟩).2.pending = (⟨true, 0, 1⟩ : SyncState).pending
      ∧ ∀ t : SyncState, (update_activities t).2.is_processing = t.is_processing) :=
  ⟨rfl, sync_request_rejected_while_processing ⟨true, 0, 1⟩ rfl⟩

/-- The mapping row produced from a degenerate 2-character NUTS3 cell. -/
def c9cex_row : MappingRow := ⟨"BE_21001", "BE", "BE", "BE", "BE"⟩

/-- C9 counterexample: parse_nuts_mapping derives the NUTS0/1/2 codes by
slicing the NUTS3 cell, but nothing enforces that the cell holds a 5-character
code; on a 2-character cell all four derived ids coincide, so the four
statistical ids do not form a strict prefix chain. -/
theorem parse_nuts_mapping_chain_not_strict :
    parse_nuts_mapping [("BE", "BE_21001")] = [c9cex_row]
    ∧ ¬ ∀ row ∈ parse_nuts_mapping [("BE", "BE_21001")],
        strictPrefixStr row.nuts0_code row.nuts1_code
        ∧ strictPrefixStr row.nuts1_code row.nuts2_code
        ∧ strictPrefixStr row.nuts2_code row.nuts3_code := by
  refine ⟨by decide, fun h => ?_⟩
  have hmem : c9cex_row ∈ parse_nuts_mapping [("BE", "BE_21001")] := by decide
  exact (h _ hmem).1.2 rfl

/-- C9 amended: every row produced by parse_nuts_mapping has its level-0,
level-1 and level-2 ids equal to the 2-, 3- and 4-character slices of its
level-3 id, so the four ids always form a (possibly collapsing) prefix
chain; the chain is strict exactly when the level-3 code has at least 5
characters, as every genuine NUTS3 code does. -/
theorem parse_nuts_mapping_chain (rows : List (String × String))
    (row : MappingRow) (hrow : row ∈ parse_nuts_mapping rows) :
    row.nuts0_code = strSlice row.nuts3_code 2
    ∧ row.nuts1_code = strSlice row.nuts3_code 3
    ∧ row.nuts2_code = strSlice row.nuts3_code 4
    ∧ row.nuts0_code.data <+: row.nuts1_code.data
    ∧ row.nuts1_code.data <+: row.nuts2_code.data
    ∧ row.nuts2_code.data <+: row.nuts3_code.data
    ∧ (5 ≤ row.nuts3_code.data.length →
        strictPrefixStr row.nuts0_code row.nuts1_code
        ∧ strictPrefixStr row.nuts1_code row.nuts2_code
        ∧ strictPrefixStr row.nuts2_code row.nuts3_code) := by
  rcases List.mem_map.mp hrow with ⟨p, _, heq⟩
  subst heq
  have hpref : ∀ m n : Nat, m ≤ n →
      (p.1.data.take m) <+: (p.1.data.take n) := by
    intro m n hmn
    have h : (p.1.data.take n).take m = p.1.data.take m := by
      rw [List.take_take, min_eq_left hmn]
    rw [← h]
    exact List.take_prefix m _
  have hlen : ∀ k : Nat, (⟨p.1.data.take k⟩ : String).data.length
      = min k p.1.data.length := by
    intro k
    simp [List.length_take]
  have hne : ∀ m n : Nat, min m p.1.data.length ≠ min n p.1.data.length →
      (⟨p.1.data.take m⟩ : String) ≠ ⟨p.1.data.take n⟩ := by
    intro m n hmn heq2
    apply hmn
    rw [← hlen m, ← hlen n, heq2]
  refine ⟨rfl, rfl, rfl, hpref 2 3 (by omega), hpref 3 4 (by omega), ?_, ?_⟩
  · exact List.take_prefix 4 p.1.data
  · intro h5
    have h5' : 5 ≤ p.1.data.length := h5
    refine ⟨⟨hpref 2 3 (by omega), hne 2 3 (by omega)⟩,
            ⟨hpref 3 4 (by omega), hne 3 4 (by omega)⟩,
            ⟨List.take_prefix 4 p.1.data, ?_⟩⟩
    intro heq2
    have heq3 : (⟨p.1.data.take 4⟩ : String) = p.1 := heq2
    have hlen2 := congrArg (fun s : String => s.data.length) heq3
    simp only [List.length_take] at hlen2
    omega

/-- The mapping row produced from a genuine 5-character NUTS3 code. -/
def c9_row : MappingRow := ⟨"BE_31003", "BE", "BE2", "BE25", "BE253"⟩

/-- Concrete instantiation of the amended C9 theorem on a genuine
5-character NUTS3 code. -/
theorem parse_nuts_mapping_chain_witness :
    c9_row ∈ parse_nuts_mapping [("BE253", "BE_31003")]
    ∧ (c9_row.nuts0_code = strSlice c9_row.nuts3_code 2
      ∧ c9_row.nuts1_code = strSlice c9_row.nuts3_code 3
      ∧ c9_row.nuts2_code = strSlice c9_row.nuts3_code 4
      ∧ c9_row.nuts0_code.data <+: c9_row.nuts1_code.data
      ∧ c9_row.nuts1_code.data <+: c9_row.nuts2_code.data
      ∧ c9_row.nuts2_code.data <+: c9_row.nuts3_code.data
      ∧ (5 ≤ c9_row.nuts3_code.data.length →
          strictPrefixStr c9_row.nuts0_code c9_row.nuts1_code
          ∧ strictPrefixStr c9_row.nuts1_code c9_row.nuts2_code
          ∧ strictPrefixStr c9_row.nuts2_code c9_row.nuts3_code)) := by
  have hmem : c9_row ∈ parse_nuts_mapping [("BE253", "BE_31003")] := by decide
  exact ⟨hmem, parse_nuts_mapping_chain [("BE253", "BE_31003")] c9_row hmem⟩

/-- Membership in one per-level link set built by process_nuts_regions: a
pair is linked exactly when some activity_lau_map entry names the activity
and one of its LAU indices has a hierarchy-mapping row whose code at the
level is the pair's code. -/
theorem mem_activity_nuts_links (activity_ids : List Nat)
    (activity_lau_map : List (Nat × List Nat)) (lauCode : Nat → String)
    (mapping : String → Option MappingRow) (level : Nat) (a : Nat)
    (c : String) :
    (a, c) ∈ activity_nuts_links activity_ids activity_lau_map lauCode
        mapping level ↔
      ∃ e ∈ activity_lau_map, ∃ lidx ∈ e.2, ∃ row,
        mapping (lauCode lidx) = some row
        ∧ activity_ids.getD e.1 0 = a ∧ nutsAt row level = c := by
  simp [activity_nuts_links, nutsPairsFor, List.mem_dedup, List.mem_flatMap,
    List.mem_filterMap, Option.map_eq_some', Prod.mk.injEq, and_assoc]

/-- C6: at every statistical level, process_nuts_regions emits for each
activity exactly the codes found in the hierarchy-mapping rows of that
activity's local-unit links (an unmatched local unit contributes nothing);
the emitted set is deduplicated, so several local units sharing a parent
link the activity to that parent only once; and every mapped local-unit
link induces the full parent chain — the activity is linked to the row's
code at all four levels. -/
theorem process_nuts_regions_links (activity_ids : List Nat)
    (activity_lau_map : List (Nat × List Nat)) (lauCode : Nat → String)
    (mapping : String → Option MappingRow) :
    (∀ level : Nat,
      (activity_nuts_links activity_ids activity_lau_map lauCode mapping
        level).Nodup)
    ∧ (∀ level : Nat, ∀ a : Nat, ∀ c : String,
        (a, c) ∈ activity_nuts_links activity_ids activity_lau_map lauCode
            mapping level ↔
          ∃ e ∈ activity_lau_map, ∃ lidx ∈ e.2, ∃ row,
            mapping (lauCode lidx) = some row
            ∧ activity_ids.getD e.1 0 = a ∧ nutsAt row level = c)
    ∧ (∀ e ∈ activity_lau_map, ∀ lidx ∈ e.2, ∀ row : MappingRow,
        mapping (lauCode lidx) = some row →
          (activity_ids.getD e.1 0, row.nuts0_code)
              ∈ activity_nuts_links activity_ids activity_lau_map lauCode mapping 0
          ∧ (activity_ids.getD e.1 0, row.nuts1_code)
              ∈ activity_nuts_links activity_ids activity_lau_map lauCode mapping 1
          ∧ (activity_ids.getD e.1 0, row.nuts2_code)
              ∈ activity_nuts_links activity_ids activity_lau_map lauCode mapping 2
          ∧ (activity_ids.getD e.1 0, row.nuts3_code)
              ∈ activity_nuts_links activity_ids activity_lau_map lauCode mapping 3) := by
  refine ⟨fun _ => List.nodup_dedup _,
    fun level a c => mem_activity_nuts_links _ _ _ _ _ _ _, ?_⟩
  intro e he lidx hlidx row hrow
  refine ⟨?_, ?_, ?_, ?_⟩ <;>
    exact (mem_activity_nuts_links _ _ _ _ _ _ _).mpr
      ⟨e, he, lidx, hlidx, row, hrow, rfl, by simp [nutsAt]⟩

/-- C8: a track with fewer than 2 coordinate points never yields a
linestring, so its activity is skipped by the collection loop of
generate_map: it receives no local-unit link and, for any
activity_lau_map whose entries index the collected activities, no
statistical-level link either — the empty attribution, with every function
total (no error is raised). -/
theorem degenerate_track_attributes_empty
    (acts : List (Nat × Option Streams)) (aid : Nat)
    (overlap : List (Int × Int) → List Nat) (lauCode : Nat → String)
    (mapping : String → Option MappingRow)
    (hdeg : ∀ s : Streams, (aid, some s) ∈ acts →
      ∀ d, s.latlng = some d → d.length < 2) :
    (∀ s : Streams, (aid, some s) ∈ acts → streams_to_linestring s = none)
    ∧ (∀ e ∈ collect_linestrings acts, e.1 ≠ aid)
    ∧ (∀ link ∈ local_links acts overlap lauCode, link.1 ≠ aid)
    ∧ (∀ activity_lau_map : List (Nat × List Nat),
        (∀ e ∈ activity_lau_map,
          e.1 < ((collect_linestrings acts).map (fun p => p.1)).length) →
        ∀ level : Nat, ∀ c : String,
          (aid, c) ∉ activity_nuts_links
            ((collect_linestrings acts).map (fun p => p.1))
            activity_lau_map lauCode mapping level) := by
  have hnone : ∀ s : Streams, (aid, some s) ∈ acts →
      streams_to_linestring s = none := by
    intro s hs
    cases hd : s.latlng with
    | none => unfold streams_to_linestring; rw [hd]
    | some d =>
        have hred : streams_to_linestring s
            = if d = [] then none
              else if (d.map (fun p => (p.2, p.1))).length < 2 then none
              else some (d.map (fun p => (p.2, p.1))) := by
          unfold streams_to_linestring
          rw [hd]
        rw [hred]
        rcases Decidable.em (d = []) with he | he
        · rw [if_pos he]
        · rw [if_neg he]
          have hlt : (d.map (fun p => (p.2, p.1))).length < 2 := by
            rw [List.length_map]
            exact hdeg s hs d hd
          rw [if_pos hlt]
  have hnotin : ∀ e ∈ collect_linestrings acts, e.1 ≠ aid := by
    intro e he hframe
    rcases List.mem_filterMap.mp he with ⟨p, hp, hpe⟩
    cases hps : p.2 with
    | none => rw [hps] at hpe; exact Option.noConfusion hpe
    | some s =>
        rw [hps] at hpe
        rcases Option.map_eq_some'.mp hpe with ⟨ls, hls, hlseq⟩
        have hp1 : p.1 = aid := by rw [← hframe, ← hlseq]
        have hpq : p = (aid, some s) := Prod.ext hp1 hps
        rw [hnone s (hpq ▸ hp)] at hls
        exact Option.noConfusion hls
  refine ⟨hnone, hnotin, ?_, ?_⟩
  · intro link hlink
    rcases List.mem_flatMap.mp hlink with ⟨e, he, hmem⟩
    rcases List.mem_map.mp hmem with ⟨lidx, _, heq⟩
    intro hframe
    apply hnotin e he
    rw [← heq] at hframe
    exact hframe
  · intro alm halm level c hmem
    rcases (mem_activity_nuts_links _ _ _ _ _ _ _).mp hmem with
      ⟨e, he, lidx, _, row, _, hgetd, _⟩
    have hlt := halm e he
    rw [List.getD_eq_getElem _ _ hlt] at hgetd
    have hin : ((collect_linestrings acts).map (fun p => p.1))[e.1] ∈
        (collect_linestrings acts).map (fun p => p.1) :=
      List.getElem_mem _
    rw [hgetd] at hin
    rcases List.mem_map.mp hin with ⟨q, hq, hq1⟩
    exact hnotin q hq hq1

/-- A one-activity batch whose only track has a single coordinate
point. -/
def c8_acts : List (Nat × Option Streams) := [(7, some ⟨some [(1, 2)]⟩)]

/-- Concrete instantiation of the C8 theorem on a one-point track. -/
theorem degenerate_track_attributes_empty_witness :
    (∀ s : Streams, (7, some s) ∈ c8_acts →
      ∀ d, s.latlng = some d → d.length < 2)
    ∧ ((∀ s : Streams, (7, some s) ∈ c8_acts → streams_to_linestring s = none)
      ∧ (∀ e ∈ collect_linestrings c8_acts, e.1 ≠ 7)
      ∧ (∀ link ∈ local_links c8_acts (fun _ => [0]) (fun _ => "LAU0"),
          link.1 ≠ 7)
      ∧ (∀ activity_lau_map : List (Nat × List Nat),
          (∀ e ∈ activity_lau_map,
            e.1 < ((collect_linestrings c8_acts).map (fun p => p.1)).length) →
          ∀ level : Nat, ∀ c : String,
            (7, c) ∉ activity_nuts_links
              ((collect_linestrings c8_acts).map (fun p => p.1))
              activity_lau_map (fun _ => "LAU0") (fun _ => none) level)) := by
  have hdeg : ∀ s : Streams, (7, some s) ∈ c8_acts →
      ∀ d, s.latlng = some d → d.length < 2 := by
    intro s hs d hd
    simp only [c8_acts, List.mem_singleton, Prod.mk.injEq, Option.some.injEq,
      true_and] at hs
    subst hs
    simp only [Option.some.injEq] at hd
    subst hd
    decide
  exact ⟨hdeg, degenerate_track_attributes_empty c8_acts 7 (fun _ => [0])
    (fun _ => "LAU0") (fun _ => none) hdeg⟩

/-- Membership in the result of get_all_lau_regions: exactly the SELECT
rows of the catalog regions having at least one activity_lau link. -/
theorem mem_get_all_lau_regions (db : Db) (row : RegionRow) :
    row ∈ get_all_lau_regions db ↔
      ∃ r ∈ db.lau_regions, (∃ l ∈ db.activity_lau, l.2 = r.lau_id)
        ∧ mkLauRow db r = row := by
  unfold get_all_lau_regions
  rw [List.Perm.mem_iff (List.perm_insertionSort _ _)]
  simp [List.mem_map, List.mem_filter, List.any_eq_true, and_assoc]

/-- Membership in the result of get_nuts_regions_by_level: exactly the
SELECT rows of the catalog regions at the level having at least one
activity_nuts link. -/
theorem mem_get_nuts_regions_by_level (db : Db) (level : Nat)
    (row : RegionRow) :
    row ∈ get_nuts_regions_by_level db level ↔
      ∃ r ∈ db.nuts_regions, r.level = level
        ∧ (∃ l ∈ db.activity_nuts, l.2 = r.nuts_code)
        ∧ mkNutsRow db r = row := by
  unfold get_nuts_regions_by_level
  rw [List.Perm.mem_iff (List.perm_insertionSort _ _)]
  simp [List.mem_map, List.mem_filter, List.any_eq_true, Bool.and_eq_true,
    and_assoc]

/-- C5: at every classification the visited-regions query returns exactly
the catalog regions with at least one activity link — a region with zero
links (with or without geometry) never appears — sorted by first_visited
descending (NULLs last, as SQLite orders them), each row annotated with
its count of distinct linked activities. -/
theorem visited_regions_query (db : Db) :
    List.Sorted fvDescOrder (get_all_lau_regions db)
    ∧ (∀ r ∈ db.lau_regions,
        ((∃ l ∈ db.activity_lau, l.2 = r.lau_id) ↔
          mkLauRow db r ∈ get_all_lau_regions db))
    ∧ (∀ row ∈ get_all_lau_regions db,
        (∃ l ∈ db.activity_lau, l.2 = row.id)
        ∧ row.activity_count =
          (((db.activity_lau.filter (fun l => l.2 = row.id)).map
            (fun l => l.1)).dedup).length)
    ∧ (∀ level : Nat,
        List.Sorted fvDescOrder (get_nuts_regions_by_level db level))
    ∧ (∀ level : Nat, ∀ r ∈ db.nuts_regions, r.level = level →
        ((∃ l ∈ db.activity_nuts, l.2 = r.nuts_code) ↔
          mkNutsRow db r ∈ get_nuts_regions_by_level db level))
    ∧ (∀ level : Nat, ∀ row ∈ get_nuts_regions_by_level db level,
        (∃ l ∈ db.activity_nuts, l.2 = row.id)
        ∧ row.activity_count =
          (((db.activity_nuts.filter (fun l => l.2 = row.id)).map
            (fun l => l.1)).dedup).length) := by
  refine ⟨List.sorted_insertionSort _ _, ?_, ?_,
    fun _ => List.sorted_insertionSort _ _, ?_, ?_⟩
  · intro r hr
    constructor
    · intro hex
      exact (mem_get_all_lau_regions db _).mpr ⟨r, hr, hex, rfl⟩
    · intro hmem
      rcases (mem_get_all_lau_regions db _).mp hmem with ⟨r', _, hex', heq⟩
      have hid : r'.lau_id = r.lau_id := congrArg RegionRow.id heq
      rw [← hid]
      exact hex'
  · intro row hmem
    rcases (mem_get_all_lau_regions db _).mp hmem with ⟨r, _, hex, heq⟩
    have hid : r.lau_id = row.id := congrArg RegionRow.id heq
    constructor
    · rw [← hid]
      exact hex
    · have hcount : row.activity_count
          = (((db.activity_lau.filter (fun l => l.2 = r.lau_id)).map
            (fun l => l.1)).dedup).length :=
        (congrArg RegionRow.activity_count heq).symm
      rw [hcount, hid]
  · intro level r hr hlevel
    constructor
    · intro hex
      exact (mem_get_nuts_regions_by_level db level _).mpr
        ⟨r, hr, hlevel, hex, rfl⟩
    · intro hmem
      rcases (mem_get_nuts_regions_by_level db level _).mp hmem with
        ⟨r', _, _, hex', heq⟩
      have hid : r'.nuts_code = r.nuts_code := congrArg RegionRow.id heq
      rw [← hid]
      exact hex'
  · intro level row hmem
    rcases (mem_get_nuts_regions_by_level db level _).mp hmem with
      ⟨r, _, _, hex, heq⟩
    have hid : r.nuts_code = row.id := congrArg RegionRow.id heq
    constructor
    · rw [← hid]
      exact hex
    · have hcount : row.activity_count
          = (((db.activity_nuts.filter (fun l => l.2 = r.nuts_code)).map
            (fun l => l.1)).dedup).length :=
        (congrArg RegionRow.activity_count heq).symm
      rw [hcount, hid]

/-- C4: after the recompute, every region with at least one activity link
has its first-visited entry equal to the minimum start_date over the
activities linked to it, and a region with zero links keeps its previous
(null) entry — given that every link references a stored activity with a
non-NULL start date, as the foreign keys and the sync flow guarantee. -/
theorem recompute_first_visited (db : Db)
    (hlau : ∀ l ∈ db.activity_lau, ∃ a ∈ db.activities,
      a.id = l.1 ∧ a.start_date.isSome)
    (hnuts : ∀ l ∈ db.activity_nuts, ∃ a ∈ db.activities,
      a.id = l.1 ∧ a.start_date.isSome) :
    (∀ rid : String,
      ((∃ l ∈ db.activity_lau, l.2 = rid) →
        ∃ m, (update_lau_first_visited_dates db).lau_first_visited rid = some m
          ∧ m ∈ lauJoinDates db rid ∧ ∀ d ∈ lauJoinDates db rid, m ≤ d)
      ∧ ((∀ l ∈ db.activity_lau, l.2 ≠ rid) →
        (update_lau_first_visited_dates db).lau_first_visited rid
          = db.lau_first_visited rid))
    ∧ (∀ code : String,
      ((∃ l ∈ db.activity_nuts, l.2 = code) →
        ∃ m, (update_nuts_first_visited_dates db).nuts_first_visited code = some m
          ∧ m ∈ nutsJoinDates db code ∧ ∀ d ∈ nutsJoinDates db code, m ≤ d)
      ∧ ((∀ l ∈ db.activity_nuts, l.2 ≠ code) →
        (update_nuts_first_visited_dates db).nuts_first_visited code
          = db.nuts_first_visited code)) := by
  constructor
  · intro rid
    constructor
    · rintro ⟨l, hl, hl2⟩
      rcases hlau l hl with ⟨a, ha, haid, hdate⟩
      rcases Option.isSome_iff_exists.mp hdate with ⟨d, hd⟩
      have hdmem : d ∈ lauJoinDates db rid := by
        unfold lauJoinDates
        refine List.mem_flatMap.mpr ⟨l, List.mem_filter.mpr ⟨hl, by simp [hl2]⟩, ?_⟩
        exact List.mem_filterMap.mpr
          ⟨a, List.mem_filter.mpr ⟨ha, by simp [haid]⟩, hd⟩
      have hne : lauJoinDates db rid ≠ [] := List.ne_nil_of_mem hdmem
      rcases sqlMin_spec hne with ⟨m, hmin, hmem, hle⟩
      have hjoin : lauHasJoinRow db rid = true := by
        refine List.any_eq_true.mpr ⟨l, hl, ?_⟩
        simp only [Bool.and_eq_true, decide_eq_true_eq, List.any_eq_true]
        exact ⟨hl2, a, ha, by simp [haid]⟩
      refine ⟨m, ?_, hmem, hle⟩
      show (if lauHasJoinRow db rid then sqlMin (lauJoinDates db rid)
        else db.lau_first_visited rid) = some m
      rw [if_pos hjoin, hmin]
    · intro hno
      have hjoin : ¬ (lauHasJoinRow db rid = true) := by
        intro h
        rcases List.any_eq_true.mp h with ⟨l, hl, hcond⟩
        simp only [Bool.and_eq_true, decide_eq_true_eq] at hcond
        exact hno l hl hcond.1
      show (if lauHasJoinRow db rid then sqlMin (lauJoinDates db rid)
        else db.lau_first_visited rid) = db.lau_first_visited rid
      rw [if_neg hjoin]
  · intro code
    constructor
    · rintro ⟨l, hl, hl2⟩
      rcases hnuts l hl with ⟨a, ha, haid, hdate⟩
      rcases Option.isSome_iff_exists.mp hdate with ⟨d, hd⟩
      have hdmem : d ∈ nutsJoinDates db code := by
        unfold nutsJoinDates
        refine List.mem_flatMap.mpr ⟨l, List.mem_filter.mpr ⟨hl, by simp [hl2]⟩, ?_⟩
        exact List.mem_filterMap.mpr
          ⟨a, List.mem_filter.mpr ⟨ha, by simp [haid]⟩, hd⟩
      have hne : nutsJoinDates db code ≠ [] := List.ne_nil_of_mem hdmem
      rcases sqlMin_spec hne with ⟨m, hmin, hmem, hle⟩
      have hjoin : nutsHasJoinRow db code = true := by
        refine List.any_eq_true.mpr ⟨l, hl, ?_⟩
        simp only [Bool.and_eq_true, decide_eq_true_eq, List.any_eq_true]
        exact ⟨hl2, a, ha, by simp [haid]⟩
      refine ⟨m, ?_, hmem, hle⟩
      show (if nutsHasJoinRow db code then sqlMin (nutsJoinDates db code)
        else db.nuts_first_visited code) = some m
      rw [if_pos hjoin, hmin]
    · intro hno
      have hjoin : ¬ (nutsHasJoinRow db code = true) := by
        intro h
        rcases List.any_eq_true.mp h with ⟨l, hl, hcond⟩
        simp only [Bool.and_eq_true, decide_eq_true_eq] at hcond
        exact hno l hl hcond.1
      show (if nutsHasJoinRow db code then sqlMin (nutsJoinDates db code)
        else db.nuts_first_visited code) = db.nuts_first_visited code
      rw [if_neg hjoin]

/-- Concrete instantiation of the amended C2 theorem at the catalog with
zero mapping rows. -/
theorem initialize_skips_iff_witness :
    initialize_region_database_skips c2_db false = true ↔
      (0 < (check_region_database_status c2_db).lau_count
      ∧ 0 < (check_region_database_status c2_db).nuts0_count
      ∧ 0 < (check_region_database_status c2_db).nuts1_count
      ∧ 0 < (check_region_database_status c2_db).nuts2_count
      ∧ 0 < (check_region_database_status c2_db).nuts3_count) :=
  initialize_skips_iff c2_db

/-- A populated spec-model store: one region per classification, one
hierarchy row, one activity, and one link in each of the five link
tables. -/
def c3_db : SpecDb :=
  { regions :=
      [⟨"M1", "Unit M1", "BE", RegionClass.localUnit, some "POLYGON",
        some "2024-01-01"⟩,
       ⟨"X", "Stat X", "BE", RegionClass.stat0, some "POLYGON",
        some "2024-01-01"⟩,
       ⟨"X1", "Stat X1", "BE", RegionClass.stat1, some "POLYGON",
        some "2024-01-01"⟩,
       ⟨"X12", "Stat X12", "BE", RegionClass.stat2, some "POLYGON",
        some "2024-01-01"⟩,
       ⟨"X123", "Stat X123", "BE", RegionClass.stat3, some "POLYGON",
        some "2024-01-01"⟩]
    hierarchy := [⟨"M1", "X", "X1", "X12", "X123"⟩]
    activities := [⟨1, "A1", "Run", some "2024-01-01", 0, 1, 1, none⟩]
    local_links := [(1, "M1")]
    stat_links := fun level =>
      if level = 0 then [(1, "X")]
      else if level = 1 then [(1, "X1")]
      else if level = 2 then [(1, "X12")]
      else [(1, "X123")] }

/-- Concrete instantiation of the C3 theorem on the populated store. -/
theorem reset_activities_only_frame_witness :
    (clear_activities c3_db).regions.map
        (fun r => (r.id, r.name, r.country_code, r.classification, r.geometry))
      = c3_db.regions.map
        (fun r => (r.id, r.name, r.country_code, r.classification, r.geometry))
    ∧ (clear_activities c3_db).regions.length = c3_db.regions.length
    ∧ (clear_activities c3_db).hierarchy = c3_db.hierarchy
    ∧ (clear_activities c3_db).activities = []
    ∧ (clear_activities c3_db).local_links = []
    ∧ (∀ level : Fin 4, (clear_activities c3_db).stat_links level = [])
    ∧ (∀ r ∈ (clear_activities c3_db).regions, r.first_visited = none) :=
  reset_activities_only_frame c3_db

/-- A database with two activities both linked to the LAU region L1 and the
NUTS region N1, and an unlinked catalog region at each classification. -/
def c4_db : Db :=
  { activities :=
      [⟨1, "A", "Run", some "2024-03-01", 0, 1, 1, none⟩,
       ⟨2, "B", "Ride", some "2024-01-15", 0, 1, 1, none⟩]
    activity_lau := [(1, "L1"), (2, "L1")]
    activity_nuts := [(1, "N1"), (2, "N1")]
    lau_regions := [⟨"L1", "Unit L1", "BE", none⟩, ⟨"L2", "Unit L2", "BE", some "POLYGON"⟩]
    nuts_regions := [⟨"N1", "Stat N1", 3, "BE", none⟩, ⟨"N2", "Stat N2", 3, "BE", some "POLYGON"⟩]
    lau_nuts_mapping := []
    lau_first_visited := fun _ => none
    nuts_first_visited := fun _ => none }

/-- Concrete instantiation of the C4 theorem: both hypotheses hold on the
two-activity database, and the recompute picks the older of the two
start dates for the linked regions. -/
theorem recompute_first_visited_witness :
    (∀ l ∈ c4_db.activity_lau, ∃ a ∈ c4_db.activities,
      a.id = l.1 ∧ a.start_date.isSome)
    ∧ (∀ l ∈ c4_db.activity_nuts, ∃ a ∈ c4_db.activities,
      a.id = l.1 ∧ a.start_date.isSome)
    ∧ ((∀ rid : String,
        ((∃ l ∈ c4_db.activity_lau, l.2 = rid) →
          ∃ m, (update_lau_first_visited_dates c4_db).lau_first_visited rid = some m
            ∧ m ∈ lauJoinDates c4_db rid ∧ ∀ d ∈ lauJoinDates c4_db rid, m ≤ d)
        ∧ ((∀ l ∈ c4_db.activity_lau, l.2 ≠ rid) →
          (update_lau_first_visited_dates c4_db).lau_first_visited rid
            = c4_db.lau_first_visited rid))
      ∧ (∀ code : String,
        ((∃ l ∈ c4_db.activity_nuts, l.2 = code) →
          ∃ m, (update_nuts_first_visited_dates c4_db).nuts_first_visited code = some m
            ∧ m ∈ nutsJoinDates c4_db code ∧ ∀ d ∈ nutsJoinDates c4_db code, m ≤ d)
        ∧ ((∀ l ∈ c4_db.activity_nuts, l.2 ≠ code) →
          (update_nuts_first_visited_dates c4_db).nuts_first_visited code
            = c4_db.nuts_first_visited code))) :=
  ⟨by decide, by decide, recompute_first_visited c4_db (by decide) (by decide)⟩

/-- A database for the visited-regions query: region L1 is linked by two
activities, region L2 has geometry but no link at all. -/
def c5_db : Db :=
  { activities :=
      [⟨1, "A", "Run", some "2024-03-01", 0, 1, 1, none⟩,
       ⟨2, "B", "Ride", some "2024-01-15", 0, 1, 1, none⟩]
    activity_lau := [(1, "L1"), (2, "L1")]
    activity_nuts := [(1, "N1"), (2, "N2")]
    lau_regions := [⟨"L1", "Unit L1", "BE", some "POLYGON"⟩,
                    ⟨"L2", "Unit L2", "BE", some "POLYGON"⟩]
    nuts_regions := [⟨"N1", "Stat N1", 3, "BE", some "POLYGON"⟩,
                     ⟨"N2", "Stat N2", 3, "BE", some "POLYGON"⟩]
    lau_nuts_mapping := []
    lau_first_visited := fun rid => if rid = "L1" then some "2024-01-15" else none
    nuts_first_visited := fun _ => none }

/-- Concrete instantiation of the C5 theorem. -/
theorem visited_regions_query_witness :
    List.Sorted fvDescOrder (get_all_lau_regions c5_db)
    ∧ (∀ r ∈ c5_db.lau_regions,
        ((∃ l ∈ c5_db.activity_lau, l.2 = r.lau_id) ↔
          mkLauRow c5_db r ∈ get_all_lau_regions c5_db))
    ∧ (∀ row ∈ get_all_lau_regions c5_db,
        (∃ l ∈ c5_db.activity_lau, l.2 = row.id)
        ∧ row.activity_count =
          (((c5_db.activity_lau.filter (fun l => l.2 = row.id)).map
            (fun l => l.1)).dedup).length)
    ∧ (∀ level : Nat,
        List.Sorted fvDescOrder (get_nuts_regions_by_level c5_db level))
    ∧ (∀ level : Nat, ∀ r ∈ c5_db.nuts_regions, r.level = level →
        ((∃ l ∈ c5_db.activity_nuts, l.2 = r.nuts_code) ↔
          mkNutsRow c5_db r ∈ get_nuts_regions_by_level c5_db level))
    ∧ (∀ level : Nat, ∀ row ∈ get_nuts_regions_by_level c5_db level,
        (∃ l ∈ c5_db.activity_nuts, l.2 = row.id)
        ∧ row.activity_count =
          (((c5_db.activity_nuts.filter (fun l => l.2 = row.id)).map
            (fun l => l.1)).dedup).length) :=
  visited_regions_query c5_db

/-- Activity ids of the spec scenario used to instantiate C6: one activity
crossing two local units that share all parents except at level 3. -/
def c6_ids : List Nat := [5]

/-- The activity_lau_map of the C6 scenario: line 0 intersects LAU indices
0 and 1. -/
def c6_map : List (Nat × List Nat) := [(0, [0, 1])]

/-- LAU codes of the C6 scenario. -/
def c6_lauCode : Nat → String := fun i => if i = 0 then "M1" else "M2"

/-- Hierarchy mapping of the C6 scenario: M1 and M2 share NUTS0/1/2 and
differ at NUTS3. -/
def c6_mapping : String → Option MappingRow := fun s =>
  if s = "M1" then some ⟨"M1", "X", "X1", "X12", "X123"⟩
  else if s = "M2" then some ⟨"M2", "X", "X1", "X12", "X124"⟩
  else none

/-- Concrete instantiation of the C6 theorem on the spec scenario. -/
theorem process_nuts_regions_links_witness :
    (∀ level : Nat,
      (activity_nuts_links c6_ids c6_map c6_lauCode c6_mapping level).Nodup)
    ∧ (∀ level : Nat, ∀ a : Nat, ∀ c : String,
        (a, c) ∈ activity_nuts_links c6_ids c6_map c6_lauCode c6_mapping
            level ↔
          ∃ e ∈ c6_map, ∃ lidx ∈ e.2, ∃ row,
            c6_mapping (c6_lauCode lidx) = some row
            ∧ c6_ids.getD e.1 0 = a ∧ nutsAt row level = c)
    ∧ (∀ e ∈ c6_map, ∀ lidx ∈ e.2, ∀ row : MappingRow,
        c6_mapping (c6_lauCode lidx) = some row →
          (c6_ids.getD e.1 0, row.nuts0_code)
              ∈ activity_nuts_links c6_ids c6_map c6_lauCode c6_mapping 0
          ∧ (c6_ids.getD e.1 0, row.nuts1_code)
              ∈ activity_nuts_links c6_ids c6_map c6_lauCode c6_mapping 1
          ∧ (c6_ids.getD e.1 0, row.nuts2_code)
              ∈ activity_nuts_links c6_ids c6_map c6_lauCode c6_mapping 2
          ∧ (c6_ids.getD e.1 0, row.nuts3_code)
              ∈ activity_nuts_links c6_ids c6_map c6_lauCode c6_mapping 3) :=
  process_nuts_regions_links c6_ids c6_map c6_lauCode c6_mapping

end Stravagonuts
